import Mathlib

/-!
Verification of the ad-evolution control loop of AdMorph.AI
(`agentic_evolution.py`, with data classes from `admorph_core.py`).

Floats are modelled as rationals (all arithmetic in the analysed code is
exact on rationals), Python lists as `List`, dictionaries keyed by strings
as association lists, and fallible calls (LLM generation, ad-platform
client) as explicit `Option`/`Except`-valued collaborator parameters.
-/

namespace AdMorph

/-- `EngagementMetrics` from `admorph_core.py`: one performance sample. -/
structure EngagementMetrics where
  variant_id : String
  impressions : Nat
  clicks : Nat
  ctr : ℚ
  conversions : Nat
  engagement_rate : ℚ
  timestamp : String
  cost_per_acquisition : ℚ
deriving DecidableEq, Inhabited

/-- One entry of `AdVariantMorph.mutation_history`
(the dict appended in `AdMutationAgent._create_mutation`). -/
structure MutationRecord where
  parent_id : String
  mutation_type : String
  strategy : String
  timestamp : String
deriving DecidableEq, Inhabited

/-- `DemographicSegment` from `admorph_core.py` (the `age_range` tuple is
split into two bounds; the free-form `meta_targeting_spec` dict is held as
an association list). -/
structure DemographicSegment where
  segment_id : String
  name : String
  age_lo : Nat
  age_hi : Nat
  gender : String
  interests : List String
  behaviors : List String
  location : String
  income_level : String
  education : String
  meta_targeting_spec : List (String × String)
deriving DecidableEq, Inhabited

/-- `AdVariantMorph` from `admorph_core.py` (the base-class fields of
`AdVariant` are inlined, as the dataclass inheritance flattens them). -/
structure AdVariantMorph where
  variant_id : String
  headline : String
  body : String
  cta : String
  image_url : String
  aesthetic_score : ℚ
  ogilvy_score : ℚ
  emotional_impact : ℚ
  format_type : String
  demographic_segment : DemographicSegment
  generation_strategy : String
  mutation_history : List MutationRecord
  performance_score : ℚ
  trend_alignment : ℚ
  meta_campaign_id : Option String := none
  is_published : Bool := false
  swipe_status : String := "pending"
deriving DecidableEq, Inhabited

/-- `np.mean` over a list of rationals (sum divided by length;
`List.length [] = 0` makes the empty case `0`, never reached on the
guarded call sites). -/
def listMean (xs : List ℚ) : ℚ := xs.sum / (xs.length : ℚ)

/-- `PerformanceAnalysisAgent._calculate_performance_score`:
score of the latest sample, `0.4*ctr_score + 0.4*conversion_score +
0.2*engagement_score`, each component clipped at 1; `0.0` on empty
history. -/
def calculatePerformanceScore (metrics : List EngagementMetrics) : ℚ :=
  match metrics.getLast? with
  | none => 0
  | some latest =>
    let ctr_score := min (latest.ctr / (5/100)) 1
    let conversion_score :=
      min (((latest.conversions : ℚ) / ((max latest.clicks 1 : ℕ) : ℚ)) / (1/10)) 1
    let engagement_score := min (latest.engagement_rate / (8/100)) 1
    ctr_score * (4/10) + conversion_score * (4/10) + engagement_score * (2/10)

/-- `PerformanceAnalysisAgent._needs_mutation`: `False` below 3 samples,
else `performance_score < 0.6  or  ctr(last) < ctr(history[-3])`
(`metrics[-3:]` is `drop (length - 3)`). -/
def needsMutation (metrics : List EngagementMetrics) : Bool :=
  if metrics.length < 3 then false
  else
    let performance_score := calculatePerformanceScore metrics
    let recent_ctrs : List ℚ := (metrics.drop (metrics.length - 3)).map (fun m => m.ctr)
    let is_declining := decide (recent_ctrs.getLastD 0 < recent_ctrs.headD 0)
    decide (performance_score < 6/10) || is_declining

/-- The dict built by
`PerformanceAnalysisAgent._analyze_performance_patterns` on a non-empty
history. -/
structure PerformanceAnalysis where
  avg_ctr : ℚ
  avg_conversion_rate : ℚ
  ctr_trend : String
  conversion_trend : String
  total_impressions : Nat
  total_conversions : Nat
deriving DecidableEq

/-- `PerformanceAnalysisAgent._analyze_performance_patterns`:
`none` models the `{"error": "No metrics available"}` dict returned on an
empty history. -/
def analyzePerformancePatterns (metrics : List EngagementMetrics) :
    Option PerformanceAnalysis :=
  match metrics with
  | [] => none
  | _ :: _ =>
    let ctrs := metrics.map (fun m => m.ctr)
    let convs := metrics.map (fun m => (m.conversions : ℚ))
    some
      { avg_ctr := listMean ctrs
        avg_conversion_rate :=
          listMean (metrics.map (fun m =>
            (m.conversions : ℚ) / ((max m.clicks 1 : ℕ) : ℚ)))
        ctr_trend := if ctrs.getLastD 0 > ctrs.headD 0 then "improving" else "declining"
        conversion_trend :=
          if convs.getLastD 0 > convs.headD 0 then "improving" else "declining"
        total_impressions := (metrics.map (fun m => m.impressions)).sum
        total_conversions := (metrics.map (fun m => m.conversions)).sum }

/-- A recommendation dict produced by
`PerformanceAnalysisAgent._recommend_mutations`. -/
structure MutationRecommendation where
  type : String
  strategy : String
  reason : String
deriving DecidableEq, Inhabited

/-- `PerformanceAnalysisAgent._recommend_mutations`: the Python body reads
the analysis dict with `.get(key, default)`, so the `{"error": ...}` dict
(here `none`) yields the defaults `0`, `0` and a missing trend. -/
def recommendMutations (analysis : Option PerformanceAnalysis) :
    List MutationRecommendation :=
  let avg_ctr := match analysis with | none => 0 | some a => a.avg_ctr
  let avg_conversion_rate := match analysis with | none => 0 | some a => a.avg_conversion_rate
  let ctr_trend := match analysis with | none => "" | some a => a.ctr_trend
  (if avg_ctr < 2/100 then
    [⟨"headline", "increase_urgency",
      "Low CTR indicates headline needs more compelling hook"⟩] else []) ++
  (if avg_conversion_rate < 5/100 then
    [⟨"cta", "strengthen_action",
      "Low conversion rate suggests weak call-to-action"⟩] else []) ++
  (if ctr_trend = "declining" then
    [⟨"body", "refresh_messaging",
      "Declining CTR indicates message fatigue"⟩] else [])

/-! ### List helpers used to relate slice-based code to index-based claims -/

theorem headD_drop (l : List ℚ) (k : Nat) (d : ℚ) :
    (l.drop k).headD d = l.getD k d := by
  induction l generalizing k with
  | nil => simp [List.getD]
  | cons a t ih =>
    cases k with
    | zero => simp [List.getD]
    | succ n => exact ih n

theorem getLastD_ne_nil (l : List ℚ) (h : l ≠ []) (d e : ℚ) :
    l.getLastD d = l.getLastD e := by
  rw [List.getLastD_eq_getLast?, List.getLastD_eq_getLast?]
  obtain ⟨x, hx⟩ := Option.isSome_iff_exists.1 (List.getLast?_isSome.2 h)
  rw [hx]
  rfl

theorem getLastD_drop (l : List ℚ) (k : Nat) (h : k < l.length) (d : ℚ) :
    (l.drop k).getLastD d = l.getLastD d := by
  induction l generalizing k with
  | nil => simp at h
  | cons a t ih =>
    cases k with
    | zero => rfl
    | succ n =>
      have hn : n < t.length := by simpa using h
      have ht : t ≠ [] := by
        cases t with
        | nil => simp at hn
        | cons b u => simp
      calc ((a :: t).drop (n+1)).getLastD d = (t.drop n).getLastD d := rfl
        _ = t.getLastD d := ih n hn
        _ = t.getLastD a := getLastD_ne_nil t ht d a
        _ = (a :: t).getLastD d := (List.getLastD_cons d a t).symm

/-- A concrete performance sample for test scenarios. -/
def mkSample (c : ℚ) (clicks conversions : Nat) (er cost : ℚ) : EngagementMetrics :=
  { variant_id := "v1", impressions := 1000, clicks := clicks, ctr := c,
    conversions := conversions, engagement_rate := er, timestamp := "t",
    cost_per_acquisition := cost }

/-- C1: `needs_mutation` is false whenever the history has fewer than 3
samples; with at least 3 samples it holds iff `performance_score < 0.6` or
the last sample's ctr is below the ctr of the third-from-last sample
(`history[-3]`). -/
theorem needs_mutation_spec (metrics : List EngagementMetrics) :
    (metrics.length < 3 → needsMutation metrics = false) ∧
    (3 ≤ metrics.length →
      (needsMutation metrics = true ↔
        calculatePerformanceScore metrics < 6/10 ∨
        (metrics.map (fun m => m.ctr)).getLastD 0 <
          (metrics.map (fun m => m.ctr)).getD (metrics.length - 3) 0)) := by
  constructor
  · intro h
    simp [needsMutation, h]
  · intro h3
    have hn : ¬ metrics.length < 3 := not_lt.2 h3
    have hmapdrop :
        (metrics.drop (metrics.length - 3)).map (fun m => m.ctr)
          = (metrics.map (fun m => m.ctr)).drop (metrics.length - 3) := by
      rw [List.map_drop]
    have hidx : metrics.length - 3 < (metrics.map (fun m => m.ctr)).length := by
      rw [List.length_map]; omega
    simp only [needsMutation, hn, if_false, Bool.or_eq_true, decide_eq_true_iff]
    rw [hmapdrop, headD_drop, getLastD_drop _ _ hidx]

def c1hist : List EngagementMetrics :=
  [mkSample (10/1000) 100 10 (4/100) 10,
   mkSample (9/1000) 100 10 (4/100) 10,
   mkSample (8/1000) 100 10 (4/100) 10]

theorem needs_mutation_spec_witness :
    3 ≤ c1hist.length ∧
    (needsMutation c1hist = true ↔
      calculatePerformanceScore c1hist < 6/10 ∨
      (c1hist.map (fun m => m.ctr)).getLastD 0 <
        (c1hist.map (fun m => m.ctr)).getD (c1hist.length - 3) 0) :=
  ⟨by decide, (needs_mutation_spec c1hist).2 (by decide)⟩

/-- C3: on a non-empty history `performance_score` is the weighted sum
`0.4*ctr_score + 0.4*conversion_score + 0.2*engagement_score` of the latest
sample's components `min(observed/target, 1)` with targets 0.05, 0.10 and
0.08; the weights sum to 1, each component lies in `[0,1]`, and the empty
history scores 0. -/
theorem performance_score_spec (metrics : List EngagementMetrics)
    (latest : EngagementMetrics) (hlast : metrics.getLast? = some latest)
    (hclicks : 1 ≤ latest.clicks) (hctr : 0 ≤ latest.ctr)
    (heng : 0 ≤ latest.engagement_rate) :
    calculatePerformanceScore metrics =
      (4/10) * min (latest.ctr / (5/100)) 1 +
      (4/10) * min (((latest.conversions : ℚ) / (latest.clicks : ℚ)) / (1/10)) 1 +
      (2/10) * min (latest.engagement_rate / (8/100)) 1 ∧
    ((4:ℚ)/10 + 4/10 + 2/10 = 1) ∧
    (0 ≤ min (latest.ctr / (5/100)) 1 ∧ min (latest.ctr / (5/100)) 1 ≤ 1) ∧
    (0 ≤ min (((latest.conversions : ℚ) / (latest.clicks : ℚ)) / (1/10)) 1 ∧
      min (((latest.conversions : ℚ) / (latest.clicks : ℚ)) / (1/10)) 1 ≤ 1) ∧
    (0 ≤ min (latest.engagement_rate / (8/100)) 1 ∧
      min (latest.engagement_rate / (8/100)) 1 ≤ 1) ∧
    calculatePerformanceScore [] = 0 := by
  have hmax : max latest.clicks 1 = latest.clicks := Nat.max_eq_left hclicks
  refine ⟨?_, by norm_num, ⟨?_, min_le_right _ _⟩, ⟨?_, min_le_right _ _⟩,
    ⟨?_, min_le_right _ _⟩, rfl⟩
  · simp only [calculatePerformanceScore, hlast, hmax]
    ring
  · exact le_min (div_nonneg hctr (by norm_num)) zero_le_one
  · exact le_min (div_nonneg (div_nonneg (Nat.cast_nonneg _) (Nat.cast_nonneg _))
      (by norm_num)) zero_le_one
  · exact le_min (div_nonneg heng (by norm_num)) zero_le_one

def c3latest : EngagementMetrics := mkSample (6/100) 100 12 (4/100) 10
def c3hist : List EngagementMetrics := [c3latest]

theorem performance_score_spec_witness :
    calculatePerformanceScore c3hist =
      (4/10) * min (c3latest.ctr / (5/100)) 1 +
      (4/10) * min (((c3latest.conversions : ℚ) / (c3latest.clicks : ℚ)) / (1/10)) 1 +
      (2/10) * min (c3latest.engagement_rate / (8/100)) 1 :=
  (performance_score_spec c3hist c3latest rfl (by decide)
    (by norm_num [c3latest, mkSample]) (by norm_num [c3latest, mkSample])).1

/-- A history whose latest sample has low ctr (0.019) and low conversion
rate (0.04) while the whole-history averages are healthy. -/
def c2cex : List EngagementMetrics :=
  [mkSample (5/100) 100 50 (4/100) 10,
   mkSample (5/100) 100 50 (4/100) 10,
   mkSample (19/1000) 100 4 (4/100) 10]

/-- C2 counterexample: on `c2cex` the latest sample's ctr is below 0.02 and
its conversions/clicks is below 0.05, yet the recommendations contain
neither a headline nor a cta entry — only the body refresh — because
`_recommend_mutations` tests the whole-history averages `avg_ctr` and
`avg_conversion_rate`, not the latest sample. -/
theorem recommend_mutations_counterexample :
    (c2cex.map (fun m => m.ctr)).getLastD 0 < 2/100 ∧
    ((c2cex.getLastD default).conversions : ℚ) /
      ((c2cex.getLastD default).clicks : ℚ) < 5/100 ∧
    recommendMutations (analyzePerformancePatterns c2cex) =
      [⟨"body", "refresh_messaging", "Declining CTR indicates message fatigue"⟩] := by
  refine ⟨by norm_num [c2cex, mkSample], by norm_num [c2cex, mkSample], ?_⟩
  norm_num [c2cex, mkSample, analyzePerformancePatterns, recommendMutations, listMean]

/-- Scenario A history: ctrs `[0.010, 0.009, 0.008]`. -/
def c2scenA : List EngagementMetrics :=
  [mkSample (10/1000) 100 10 (4/100) 10,
   mkSample (9/1000) 100 10 (4/100) 10,
   mkSample (8/1000) 100 10 (4/100) 10]

/-- C2 amended: for a non-empty history the recommendations are exactly
those of three independent rules evaluated on the whole-history analysis:
mean ctr < 0.02 yields {headline, increase_urgency}; mean per-sample
conversions/max(clicks,1) < 0.05 yields {cta, strengthen_action}; a ctr
trend classified declining (last ctr not greater than first ctr) yields
{body, refresh_messaging}; several may apply at once. The 3-sample
declining history [0.010, 0.009, 0.008] yields needs_mutation=true and a
{body, refresh_messaging} recommendation. -/
theorem recommend_mutations_amended (metrics : List EngagementMetrics)
    (hne : metrics ≠ []) :
    ((⟨"headline", "increase_urgency",
        "Low CTR indicates headline needs more compelling hook"⟩ ∈
        recommendMutations (analyzePerformancePatterns metrics)) ↔
      listMean (metrics.map (fun m => m.ctr)) < 2/100) ∧
    ((⟨"cta", "strengthen_action",
        "Low conversion rate suggests weak call-to-action"⟩ ∈
        recommendMutations (analyzePerformancePatterns metrics)) ↔
      listMean (metrics.map (fun m =>
        (m.conversions : ℚ) / ((max m.clicks 1 : ℕ) : ℚ))) < 5/100) ∧
    ((⟨"body", "refresh_messaging",
        "Declining CTR indicates message fatigue"⟩ ∈
        recommendMutations (analyzePerformancePatterns metrics)) ↔
      ¬ ((metrics.map (fun m => m.ctr)).getLastD 0 >
          (metrics.map (fun m => m.ctr)).headD 0)) ∧
    needsMutation c2scenA = true ∧
    (⟨"body", "refresh_messaging", "Declining CTR indicates message fatigue"⟩ ∈
      recommendMutations (analyzePerformancePatterns c2scenA)) := by
  refine ⟨?_, ?_, ?_, ?_, ?_⟩
  · cases metrics with
    | nil => exact absurd rfl hne
    | cons m rest =>
      simp only [analyzePerformancePatterns, recommendMutations]
      by_cases h1 : listMean ((m :: rest).map (fun m => m.ctr)) < 2/100 <;>
        by_cases h2 : listMean ((m :: rest).map (fun m =>
          (m.conversions : ℚ) / ((max m.clicks 1 : ℕ) : ℚ))) < 5/100 <;>
        by_cases h3 : ((m :: rest).map (fun m => m.ctr)).getLastD 0 >
          ((m :: rest).map (fun m => m.ctr)).headD 0 <;>
        simp [h1, h2, h3]
  · cases metrics with
    | nil => exact absurd rfl hne
    | cons m rest =>
      simp only [analyzePerformancePatterns, recommendMutations]
      by_cases h1 : listMean ((m :: rest).map (fun m => m.ctr)) < 2/100 <;>
        by_cases h2 : listMean ((m :: rest).map (fun m =>
          (m.conversions : ℚ) / ((max m.clicks 1 : ℕ) : ℚ))) < 5/100 <;>
        by_cases h3 : ((m :: rest).map (fun m => m.ctr)).getLastD 0 >
          ((m :: rest).map (fun m => m.ctr)).headD 0 <;>
        simp [h1, h2, h3]
  · cases metrics with
    | nil => exact absurd rfl hne
    | cons m rest =>
      simp only [analyzePerformancePatterns, recommendMutations]
      by_cases h1 : listMean ((m :: rest).map (fun m => m.ctr)) < 2/100 <;>
        by_cases h2 : listMean ((m :: rest).map (fun m =>
          (m.conversions : ℚ) / ((max m.clicks 1 : ℕ) : ℚ))) < 5/100 <;>
        by_cases h3 : ((m :: rest).map (fun m => m.ctr)).getLastD 0 >
          ((m :: rest).map (fun m => m.ctr)).headD 0 <;>
        simp [h1, h2, h3]
  · norm_num [c2scenA, mkSample, needsMutation, calculatePerformanceScore]
  · norm_num [c2scenA, mkSample, analyzePerformancePatterns, recommendMutations,
      listMean]

theorem recommend_mutations_amended_witness :
    (⟨"headline", "increase_urgency",
        "Low CTR indicates headline needs more compelling hook"⟩ ∈
        recommendMutations (analyzePerformancePatterns c2scenA)) ↔
      listMean (c2scenA.map (fun m => m.ctr)) < 2/100 :=
  (recommend_mutations_amended c2scenA (by simp [c2scenA])).1

/-! ### MutationAgent (`AdMutationAgent` in `agentic_evolution.py`) -/

/-- `AdMutationAgent._create_mutation`: the content-generation call is
modelled by its outcome `genResult` (`none` = the caught exception path
returning `None`, `some text` = the stripped generated copy); the freshly
drawn uuid and timestamp are supplied as `newId` and `newTimestamp`. -/
def createMutation (original : AdVariantMorph) (rec : MutationRecommendation)
    (genResult : Option String) (newId newTimestamp : String) :
    Option AdVariantMorph :=
  match genResult with
  | none => none
  | some new_content =>
    some { variant_id := newId
           headline := if rec.type = "headline" then new_content else original.headline
           body := if rec.type = "body" then new_content else original.body
           cta := if rec.type = "cta" then new_content else original.cta
           image_url := original.image_url
           aesthetic_score := original.aesthetic_score
           ogilvy_score := original.ogilvy_score
           emotional_impact := original.emotional_impact * (11/10)
           format_type := original.format_type
           demographic_segment := original.demographic_segment
           generation_strategy := "mutation_" ++ rec.strategy
           mutation_history := original.mutation_history ++
             [⟨original.variant_id, rec.type, rec.strategy, newTimestamp⟩]
           performance_score := 0
           trend_alignment := 8/10
           swipe_status := "pending" }

/-- The dict returned by `AdMutationAgent.execute`. -/
structure MutationResult where
  original_variant_id : String
  mutated_variants : List AdVariantMorph
  mutation_count : Nat
  mutation_timestamp : String

/-- The recommendation loop of `AdMutationAgent.execute`: each
recommendation is attempted in order and appended only when
`_create_mutation` succeeds; `k` counts iterations so each attempt draws
its own fresh id and timestamp. -/
def mutationRunAux (variant : AdVariantMorph)
    (recs : List MutationRecommendation)
    (gen : MutationRecommendation → Option String)
    (freshId freshTime : Nat → String) (k : Nat) : List AdVariantMorph :=
  match recs with
  | [] => []
  | r :: rest =>
    match createMutation variant r (gen r) (freshId k) (freshTime k) with
    | some mv => mv :: mutationRunAux variant rest gen freshId freshTime (k+1)
    | none => mutationRunAux variant rest gen freshId freshTime (k+1)

/-- `AdMutationAgent.execute`. -/
def mutationExecute (variant : AdVariantMorph)
    (recs : List MutationRecommendation)
    (gen : MutationRecommendation → Option String)
    (freshId freshTime : Nat → String) (now : String) : MutationResult :=
  let mutated := mutationRunAux variant recs gen freshId freshTime 0
  { original_variant_id := variant.variant_id
    mutated_variants := mutated
    mutation_count := mutated.length
    mutation_timestamp := now }

/-- A concrete demographic segment for test scenarios. -/
def demoSegment : DemographicSegment :=
  ⟨"seg1", "Tech Professionals", 25, 40, "all", ["Technology"],
   ["Early adopters"], "United States", "High", "Bachelors", []⟩

/-- A concrete parent variant for test scenarios. -/
def c5parent : AdVariantMorph :=
  { variant_id := "parent-1", headline := "Revolutionize Your Workflow",
    body := "Discover how AI can transform your business processes.",
    cta := "Get Started", image_url := "", aesthetic_score := 8/10,
    ogilvy_score := 3/4, emotional_impact := 7/10, format_type := "social",
    demographic_segment := demoSegment, generation_strategy := "initial",
    mutation_history := [], performance_score := 1/2, trend_alignment := 6/10,
    meta_campaign_id := none, is_published := false, swipe_status := "approved" }

def c5rec : MutationRecommendation :=
  ⟨"headline", "increase_urgency", "Low CTR indicates headline needs more compelling hook"⟩

/-- C5 counterexample: mutating `c5parent` on the headline leaves the body
alone and extends the lineage by one, but the child also differs from the
parent in `performance_score` (reset to 0 from 1/2) and `swipe_status`
("pending" vs "approved") — so it is not identical to its parent in every
field except the targeted one. -/
theorem create_mutation_counterexample :
    (createMutation c5parent c5rec (some "Act Now") "child-1" "t2").map
      (fun c => c.performance_score) = some 0 ∧
    c5parent.performance_score = 1/2 ∧ (0 : ℚ) ≠ 1/2 ∧
    (createMutation c5parent c5rec (some "Act Now") "child-1" "t2").map
      (fun c => c.swipe_status) = some "pending" ∧
    c5parent.swipe_status = "approved" ∧ "pending" ≠ "approved" ∧
    (createMutation c5parent c5rec (some "Act Now") "child-1" "t2").map
      (fun c => c.body) = some c5parent.body ∧
    (createMutation c5parent c5rec (some "Act Now") "child-1" "t2").map
      (fun c => c.mutation_history.length) =
        some (c5parent.mutation_history.length + 1) := by
  refine ⟨rfl, rfl, by norm_num, rfl, rfl, by decide, rfl, rfl⟩

/-- C5 amended: a successfully created child copies the parent's
non-targeted creative fields and static attributes (image, scores, format,
segment) and replaces exactly the creative field named by the
recommendation's type; its `mutation_history` is the parent's plus one
appended `{parent_id, mutation_type, strategy, timestamp}` entry, so its
length is the parent's plus 1. The bookkeeping fields (`variant_id`,
`emotional_impact`, `generation_strategy`, `performance_score`,
`trend_alignment`, `swipe_status`) are however re-derived, not copied. -/
theorem create_mutation_frame_amended (parent : AdVariantMorph)
    (rec : MutationRecommendation) (txt newId ts : String)
    (c : AdVariantMorph)
    (h : createMutation parent rec (some txt) newId ts = some c) :
    c.image_url = parent.image_url ∧
    c.aesthetic_score = parent.aesthetic_score ∧
    c.ogilvy_score = parent.ogilvy_score ∧
    c.format_type = parent.format_type ∧
    c.demographic_segment = parent.demographic_segment ∧
    c.mutation_history = parent.mutation_history ++
      [⟨parent.variant_id, rec.type, rec.strategy, ts⟩] ∧
    c.mutation_history.length = parent.mutation_history.length + 1 ∧
    (rec.type = "headline" →
      c.headline = txt ∧ c.body = parent.body ∧ c.cta = parent.cta) ∧
    (rec.type = "body" →
      c.body = txt ∧ c.headline = parent.headline ∧ c.cta = parent.cta) ∧
    (rec.type = "cta" →
      c.cta = txt ∧ c.headline = parent.headline ∧ c.body = parent.body) := by
  have hc := h
  simp only [createMutation, Option.some.injEq] at hc
  subst hc
  refine ⟨rfl, rfl, rfl, rfl, rfl, rfl, by simp, ?_, ?_, ?_⟩
  · intro ht; simp [ht]
  · intro ht; simp [ht]
  · intro ht; simp [ht]

/-- The child that `createMutation` produces from `c5parent` and `c5rec`. -/
def c5child : AdVariantMorph :=
  { variant_id := "child-1"
    headline := "Act Now"
    body := c5parent.body
    cta := c5parent.cta
    image_url := c5parent.image_url
    aesthetic_score := c5parent.aesthetic_score
    ogilvy_score := c5parent.ogilvy_score
    emotional_impact := c5parent.emotional_impact * (11/10)
    format_type := c5parent.format_type
    demographic_segment := c5parent.demographic_segment
    generation_strategy := "mutation_" ++ c5rec.strategy
    mutation_history := c5parent.mutation_history ++
      [⟨c5parent.variant_id, c5rec.type, c5rec.strategy, "t2"⟩]
    performance_score := 0
    trend_alignment := 8/10
    swipe_status := "pending" }

theorem create_mutation_frame_amended_witness :
    c5child.body = c5parent.body ∧
    c5child.mutation_history.length = c5parent.mutation_history.length + 1 := by
  have h := create_mutation_frame_amended c5parent c5rec "Act Now" "child-1" "t2"
    c5child rfl
  exact ⟨(h.2.2.2.2.2.2.2.1 rfl).2.1, h.2.2.2.2.2.2.1⟩

/-- A parent already ahead of the mutation boosts: trend alignment 0.9,
emotional impact 0.95. -/
def c6parent : AdVariantMorph :=
  { c5parent with
      variant_id := "parent-6"
      trend_alignment := 9/10
      emotional_impact := 95/100 }

def c6rec : MutationRecommendation :=
  ⟨"body", "refresh_messaging", "Declining CTR indicates message fatigue"⟩

/-- C6 counterexample: the child of `c6parent` gets `trend_alignment = 0.8`
(a constant, not `max(parent, 0.8) = 0.9`) and `emotional_impact =
0.95 * 1.1 = 1.045` (uncapped, not `min(parent*1.1, 1) = 1`). -/
theorem mutation_scores_counterexample :
    (createMutation c6parent c6rec (some "Fresh body") "child-6" "t6").map
      (fun c => c.trend_alignment) = some (8/10) ∧
    max c6parent.trend_alignment (8/10) = 9/10 ∧ (8 : ℚ)/10 ≠ 9/10 ∧
    (createMutation c6parent c6rec (some "Fresh body") "child-6" "t6").map
      (fun c => c.emotional_impact) = some (209/200) ∧
    min (c6parent.emotional_impact * (11/10)) 1 = 1 ∧ (209 : ℚ)/200 ≠ 1 := by
  refine ⟨rfl, ?_, by norm_num, ?_, ?_, by norm_num⟩
  · norm_num [c6parent, c5parent]
  · simp only [createMutation, Option.map_some]
    norm_num [c6parent, c5parent]
  · norm_num [c6parent, c5parent]

/-- C6 amended: a successfully created child has `trend_alignment` set to
the constant 0.8, `emotional_impact` equal to the parent's times 1.1
without any cap, `performance_score` reset to 0, is un-published with no
campaign id, and carries the freshly generated `variant_id` (distinct from
the parent's whenever the generator avoids collision). -/
theorem mutation_scores_amended (parent : AdVariantMorph)
    (rec : MutationRecommendation) (txt newId ts : String)
    (c : AdVariantMorph)
    (h : createMutation parent rec (some txt) newId ts = some c) :
    c.trend_alignment = 8/10 ∧
    c.emotional_impact = parent.emotional_impact * (11/10) ∧
    c.performance_score = 0 ∧
    c.is_published = false ∧
    c.meta_campaign_id = none ∧
    c.variant_id = newId ∧
    (newId ≠ parent.variant_id → c.variant_id ≠ parent.variant_id) := by
  have hc := h
  simp only [createMutation, Option.some.injEq] at hc
  subst hc
  exact ⟨rfl, rfl, rfl, rfl, rfl, rfl, fun hne => hne⟩

/-- The child that `createMutation` produces from `c6parent` and `c6rec`. -/
def c6child : AdVariantMorph :=
  { variant_id := "child-6"
    headline := c6parent.headline
    body := "Fresh body"
    cta := c6parent.cta
    image_url := c6parent.image_url
    aesthetic_score := c6parent.aesthetic_score
    ogilvy_score := c6parent.ogilvy_score
    emotional_impact := c6parent.emotional_impact * (11/10)
    format_type := c6parent.format_type
    demographic_segment := c6parent.demographic_segment
    generation_strategy := "mutation_" ++ c6rec.strategy
    mutation_history := c6parent.mutation_history ++
      [⟨c6parent.variant_id, c6rec.type, c6rec.strategy, "t6"⟩]
    performance_score := 0
    trend_alignment := 8/10
    swipe_status := "pending" }

theorem mutation_scores_amended_witness :
    c6child.trend_alignment = 8/10 ∧ c6child.performance_score = 0 := by
  have h := mutation_scores_amended c6parent c6rec "Fresh body" "child-6" "t6"
    c6child rfl
  exact ⟨h.1, h.2.2.1⟩

/-- C7: the batch loop of `AdMutationAgent.execute` skips exactly the
recommendations whose generation call fails: the child list holds one
child per successful generation, a single failure shortens it by exactly 1
relative to an all-successful run, the batch is never aborted, and the
(immutable) parent is reported unchanged as `original_variant_id`. -/
theorem mutation_batch_spec (variant : AdVariantMorph)
    (recs : List MutationRecommendation)
    (gen : MutationRecommendation → Option String)
    (freshId freshTime : Nat → String) (now : String) :
    (mutationExecute variant recs gen freshId freshTime now).original_variant_id
        = variant.variant_id ∧
    (mutationExecute variant recs gen freshId freshTime now).mutated_variants.length
        = recs.countP (fun r => (gen r).isSome) ∧
    (∀ (l1 l2 : List MutationRecommendation) (r0 : MutationRecommendation),
      recs = l1 ++ r0 :: l2 → gen r0 = none →
      (∀ r ∈ l1, (gen r).isSome) → (∀ r ∈ l2, (gen r).isSome) →
      (mutationExecute variant recs gen freshId freshTime now).mutated_variants.length
          + 1 = recs.length) ∧
    ((∀ r ∈ recs, (gen r).isSome) →
      (mutationExecute variant recs gen freshId freshTime now).mutated_variants.length
          = recs.length) := by
  have key : ∀ (rs : List MutationRecommendation) (k : Nat),
      (mutationRunAux variant rs gen freshId freshTime k).length
        = rs.countP (fun r => (gen r).isSome) := by
    intro rs
    induction rs with
    | nil => intro k; simp [mutationRunAux]
    | cons r rest ih =>
      intro k
      cases hg : gen r with
      | none =>
        simp [mutationRunAux, createMutation, hg, ih, List.countP_cons]
      | some txt =>
        simp [mutationRunAux, createMutation, hg, ih, List.countP_cons]
  refine ⟨rfl, key recs 0, ?_, ?_⟩
  · intro l1 l2 r0 hsplit hg0 h1 h2
    subst hsplit
    have hc1 : l1.countP (fun r => (gen r).isSome) = l1.length :=
      List.countP_eq_length.2 (fun r hr => by simpa using h1 r hr)
    have hc2 : l2.countP (fun r => (gen r).isSome) = l2.length :=
      List.countP_eq_length.2 (fun r hr => by simpa using h2 r hr)
    have := key (l1 ++ r0 :: l2) 0
    simp only [mutationExecute] at *
    rw [this, List.countP_append, List.countP_cons, hc1, hc2, hg0]
    simp [List.length_append]
    omega
  · intro hall
    have hc : recs.countP (fun r => (gen r).isSome) = recs.length :=
      List.countP_eq_length.2 (fun r hr => by simpa using hall r hr)
    simpa [mutationExecute, hc] using key recs 0

theorem mutation_batch_spec_witness :
    (mutationExecute c5parent
        [⟨"cta", "strengthen_action", "Low conversion rate suggests weak call-to-action"⟩]
        (fun _ => none) (fun _ => "id-w") (fun _ => "ts-w")
        "now").mutated_variants.length + 1 =
      ([⟨"cta", "strengthen_action", "Low conversion rate suggests weak call-to-action"⟩]
        : List MutationRecommendation).length :=
  (mutation_batch_spec c5parent
      [⟨"cta", "strengthen_action", "Low conversion rate suggests weak call-to-action"⟩]
      (fun _ => none) (fun _ => "id-w") (fun _ => "ts-w") "now").2.2.1
    [] [] ⟨"cta", "strengthen_action", "Low conversion rate suggests weak call-to-action"⟩
    rfl rfl (by simp) (by simp)

/-! ### EvolutionOrchestrator -/

/-- One record of the orchestrator's `active_variants` dict. -/
structure ActiveVariantEntry where
  variant : AdVariantMorph
  performance_history : List EngagementMetrics
deriving DecidableEq, Inhabited

/-- The `active_variants` dict, as an association list in insertion
order. -/
abbrev ActiveVariants := List (String × ActiveVariantEntry)

/-- Dict lookup `self.active_variants[variant_id]` /
`variant_id in self.active_variants`. -/
def lookupVariant (av : ActiveVariants) (vid : String) :
    Option ActiveVariantEntry :=
  (av.find? (fun p => p.1 == vid)).map (fun p => p.2)

/-- The dict returned by the ad-platform collaborator's
`publish_campaign`. -/
structure PublishResult where
  success : Bool
  campaign_id : Option String
deriving DecidableEq

/-- The filter of `_auto_publish_mutations`:
`m.trend_alignment > 0.7 and len(m.mutation_history) <= 2`. -/
def highConfidence (m : AdVariantMorph) : Bool :=
  decide (7/10 < m.trend_alignment) && decide (m.mutation_history.length ≤ 2)

/-- `EvolutionOrchestrator._auto_publish_mutations`: the platform call is
the `platform` collaborator (`Except.error` = the raised exception the
source catches and prints). Returns the updated mutation list and the
printed error message, if any; nothing else escapes to the caller. -/
def autoPublishMutations (mutations : List AdVariantMorph)
    (platform : List AdVariantMorph → Except String PublishResult) :
    List AdVariantMorph × Option String :=
  let hcm := mutations.filter highConfidence
  if hcm.isEmpty then (mutations, none)
  else
    match platform hcm with
    | Except.error e => (mutations, some ("Error auto-publishing mutations: " ++ e))
    | Except.ok result =>
      if result.success then
        (mutations.map (fun m =>
          if highConfidence m then
            { m with
                is_published := true
                meta_campaign_id := result.campaign_id }
          else m), none)
      else (mutations, none)

/-- The `evolution_results` dict of `start_evolution_cycle`
(`cycle_id`/`started_at` omitted as opaque identifiers;
`performance_improvements` and `trend_alignments` are initialised empty
and never appended in the source). -/
structure EvolutionCycleResult where
  variants_processed : Nat
  mutations_created : Nat
  performance_improvements : List String
  trend_alignments : List String
deriving DecidableEq

/-- The updates `start_evolution_cycle` applies to `evolution_results`
while processing one variant: `variants_processed += 1` always; when the
variant needs mutation, `mutations_created += mutation_count`. The source
then awaits `_auto_publish_mutations` and discards its outcome (failures
are only printed), so `publishOutcome` cannot flow into the result. -/
def processVariantResult (res : EvolutionCycleResult) (needs : Bool)
    (mutationCount : Nat)
    (publishOutcome : Except String PublishResult) : EvolutionCycleResult :=
  let res1 :=
    { res with variants_processed := res.variants_processed + 1 }
  match publishOutcome with
  | _ =>
    if needs then
      { res1 with mutations_created := res1.mutations_created + mutationCount }
    else res1

/-- Scenario E child A: `trend_alignment = 0.75`, 1 lineage entry. -/
def c4childA : AdVariantMorph :=
  { c5parent with
      variant_id := "child-A"
      trend_alignment := 3/4
      mutation_history := [⟨"parent-1", "headline", "increase_urgency", "t1"⟩] }

/-- Scenario E child B: `trend_alignment = 0.75`, 3 lineage entries. -/
def c4childB : AdVariantMorph :=
  { c5parent with
      variant_id := "child-B"
      trend_alignment := 3/4
      mutation_history :=
        [⟨"parent-1", "headline", "increase_urgency", "t1"⟩,
         ⟨"child-B1", "body", "refresh_messaging", "t2"⟩,
         ⟨"child-B2", "cta", "strengthen_action", "t3"⟩] }

def c4res0 : EvolutionCycleResult := ⟨0, 0, [], []⟩

/-- C4 counterexample: `c4childA` is selected, and on a platform failure
it does remain un-published — but the failure is not recorded in the
cycle result: the `evolution_results` update is identical whether the
publish call fails or succeeds (the source only prints the exception). -/
theorem auto_publish_counterexample :
    highConfidence c4childA = true ∧
    (autoPublishMutations [c4childA]
        (fun _ => Except.error "PlatformError")).1 = [c4childA] ∧
    c4childA.is_published = false ∧
    processVariantResult c4res0 true 1 (Except.error "PlatformError") =
      processVariantResult c4res0 true 1 (Except.ok ⟨true, some "cmp-1"⟩) := by
  refine ⟨?_, ?_, rfl, rfl⟩
  · simp only [highConfidence, Bool.and_eq_true, decide_eq_true_iff]
    constructor
    · norm_num [c4childA, c5parent]
    · simp [c4childA, c5parent]
  · have h : highConfidence c4childA = true := by
      simp only [highConfidence, Bool.and_eq_true, decide_eq_true_iff]
      exact ⟨by norm_num [c4childA, c5parent], by simp [c4childA, c5parent]⟩
    simp [autoPublishMutations, h]

/-- C4 amended: a mutated child is selected for auto-publishing iff its
`trend_alignment > 0.7` and its `mutation_history` has at most 2 entries;
on platform success every selected child gets `is_published = true` and
the returned campaign id; on platform failure (or unsuccessful response)
the children are returned unchanged and nothing is raised — the failure
is only printed, and the cycle result does not reflect it. Child A
(alignment 0.75, 1 entry) is selected; child B (alignment 0.75, 3
entries) is not. -/
theorem auto_publish_amended (muts : List AdVariantMorph)
    (platform : List AdVariantMorph → Except String PublishResult) :
    (∀ m : AdVariantMorph, highConfidence m = true ↔
      7/10 < m.trend_alignment ∧ m.mutation_history.length ≤ 2) ∧
    (∀ e, platform (muts.filter highConfidence) = Except.error e →
      (autoPublishMutations muts platform).1 = muts) ∧
    (∀ res, platform (muts.filter highConfidence) = Except.ok res →
      res.success = true →
      (autoPublishMutations muts platform).1 =
        muts.map (fun m =>
          if highConfidence m then
            { m with
                is_published := true
                meta_campaign_id := res.campaign_id }
          else m)) ∧
    highConfidence c4childA = true ∧ highConfidence c4childB = false := by
  refine ⟨?_, ?_, ?_, ?_, ?_⟩
  · intro m
    simp [highConfidence]
  · intro e he
    by_cases hemp : (muts.filter highConfidence).isEmpty
    · simp [autoPublishMutations, hemp]
    · simp [autoPublishMutations, hemp, he]
  · intro res hres hsucc
    by_cases hemp : (muts.filter highConfidence).isEmpty
    · have hnil : muts.filter highConfidence = [] := by
        simpa [List.isEmpty_iff] using hemp
      have hall : ∀ m ∈ muts, ¬ highConfidence m = true := by
        intro m hm hc
        have : m ∈ muts.filter highConfidence := List.mem_filter.2 ⟨hm, hc⟩
        simp [hnil] at this
      have hmap : muts.map (fun m =>
          if highConfidence m then
            { m with
                is_published := true
                meta_campaign_id := res.campaign_id }
          else m) = muts := by
        calc muts.map (fun m =>
              if highConfidence m then
                { m with
                    is_published := true
                    meta_campaign_id := res.campaign_id }
              else m)
            = muts.map id := by
              apply List.map_congr_left
              intro m hm
              simp [hall m hm]
          _ = muts := List.map_id muts
      simp [autoPublishMutations, hemp, hmap]
    · simp [autoPublishMutations, hemp, hres, hsucc]
  · simp only [highConfidence, Bool.and_eq_true, decide_eq_true_iff]
    exact ⟨by norm_num [c4childA, c5parent], by simp [c4childA, c5parent]⟩
  · simp only [highConfidence]
    have : ¬ c4childB.mutation_history.length ≤ 2 := by
      simp [c4childB, c5parent]
    simp [this]

theorem auto_publish_amended_witness :
    (autoPublishMutations [c4childA]
        (fun _ => Except.error "PlatformError")).1 = [c4childA] :=
  (auto_publish_amended [c4childA]
      (fun _ => Except.error "PlatformError")).2.1 "PlatformError" rfl

/-- A pause/resume command sent to the ad-platform client. -/
inductive PlatformAction where
  | pause (campaign_id : String)
  | resume (campaign_id : String)
deriving DecidableEq

/-- The result dict of `emergency_rollback`. -/
structure RollbackResult where
  success : Bool
  error : Option String := none
  rolled_back_to : Option String := none
  paused_variant : Option String := none
deriving DecidableEq

/-- `EvolutionOrchestrator.emergency_rollback`: returns the structured
result dict together with the pause/resume commands issued to the
ad-platform client (which itself catches all its exceptions and returns
dicts, so nothing raises). -/
def emergencyRollback (av : ActiveVariants) (variant_id : String) :
    RollbackResult × List PlatformAction :=
  match lookupVariant av variant_id with
  | none => ({ success := false, error := some "Variant not found" }, [])
  | some entry =>
    match entry.variant.mutation_history.getLast? with
    | none =>
      ({ success := false, error := some "No previous version to rollback to" }, [])
    | some lastMut =>
      match lookupVariant av lastMut.parent_id with
      | none => ({ success := false, error := some "Parent variant not found" }, [])
      | some parentEntry =>
        let pauseActs := match entry.variant.meta_campaign_id with
          | some cid => [PlatformAction.pause cid]
          | none => []
        let resumeActs := match parentEntry.variant.meta_campaign_id with
          | some cid => [PlatformAction.resume cid]
          | none => []
        ({ success := true, rolled_back_to := some lastMut.parent_id,
           paused_variant := some variant_id }, pauseActs ++ resumeActs)

/-- C8: `emergency_rollback` never raises — an unknown variant id yields a
structured failure, a root variant (empty lineage) yields the structured
"no previous version" rollback error, and when the immediate parent (the
last lineage entry's `parent_id`) is in the active set it pauses the
variant's campaign, resumes the parent's, and returns success naming the
parent. -/
theorem emergency_rollback_spec (av : ActiveVariants) (vid : String) :
    (lookupVariant av vid = none →
      emergencyRollback av vid =
        ({ success := false, error := some "Variant not found" }, [])) ∧
    (∀ entry, lookupVariant av vid = some entry →
      entry.variant.mutation_history = [] →
      emergencyRollback av vid =
        ({ success := false,
           error := some "No previous version to rollback to" }, [])) ∧
    (∀ entry lastMut parentEntry cid pcid,
      lookupVariant av vid = some entry →
      entry.variant.mutation_history.getLast? = some lastMut →
      lookupVariant av lastMut.parent_id = some parentEntry →
      entry.variant.meta_campaign_id = some cid →
      parentEntry.variant.meta_campaign_id = some pcid →
      emergencyRollback av vid =
        ({ success := true, rolled_back_to := some lastMut.parent_id,
           paused_variant := some vid },
         [PlatformAction.pause cid, PlatformAction.resume pcid])) := by
  refine ⟨?_, ?_, ?_⟩
  · intro h
    simp [emergencyRollback, h]
  · intro entry h hroot
    simp [emergencyRollback, h, hroot]
  · intro entry lastMut parentEntry cid pcid h hlast hpar hcid hpcid
    simp [emergencyRollback, h, hlast, hpar, hcid, hpcid]

/-- The published parent in the rollback scenario. -/
def c8parent : AdVariantMorph :=
  { c5parent with
      meta_campaign_id := some "cmp-p"
      is_published := true }

/-- The published child in the rollback scenario. -/
def c8child : AdVariantMorph :=
  { c5parent with
      variant_id := "child-8"
      mutation_history := [⟨"parent-1", "headline", "increase_urgency", "t1"⟩]
      meta_campaign_id := some "cmp-c"
      is_published := true }

def c8av : ActiveVariants :=
  [("parent-1", ⟨c8parent, []⟩), ("child-8", ⟨c8child, []⟩)]

theorem emergency_rollback_spec_witness :
    emergencyRollback c8av "child-8" =
      ({ success := true, rolled_back_to := some "parent-1",
         paused_variant := some "child-8" },
       [PlatformAction.pause "cmp-c", PlatformAction.resume "cmp-p"]) :=
  (emergency_rollback_spec c8av "child-8").2.2 ⟨c8child, []⟩
    ⟨"parent-1", "headline", "increase_urgency", "t1"⟩ ⟨c8parent, []⟩
    "cmp-c" "cmp-p" rfl rfl rfl rfl rfl

/-! ### EvolutionMonitor -/

/-- An alert dict from `EvolutionMonitor._check_for_alerts` (the
human-readable `message` string is not modelled). -/
structure Alert where
  type : String
  variant_id : String
  severity : String
deriving DecidableEq

/-- The per-variant body of `EvolutionMonitor._check_for_alerts`:
variants with fewer than 2 samples are skipped; with at least 3 samples
the mean ctr of `history[-3:]` is compared against 0.8 times the mean ctr
of `history[-6:-3]` (or against itself when fewer than 6 samples exist),
firing a high-severity `performance_drop`; a latest
`cost_per_acquisition` above 100 fires a medium-severity `high_cost`. -/
def checkVariantAlerts (vid : String) (hist : List EngagementMetrics) :
    List Alert :=
  if hist.length < 2 then []
  else
    let dropAlerts :=
      if 3 ≤ hist.length then
        let recent_avg := listMean ((hist.drop (hist.length - 3)).map (fun m => m.ctr))
        let previous_avg :=
          if 6 ≤ hist.length then
            listMean (((hist.drop (hist.length - 6)).take 3).map (fun m => m.ctr))
          else recent_avg
        if recent_avg < previous_avg * (8/10) then
          [{ type := "performance_drop", variant_id := vid, severity := "high" }]
        else []
      else []
    let costAlerts :=
      if 100 < (hist.getLastD default).cost_per_acquisition then
        [{ type := "high_cost", variant_id := vid, severity := "medium" }]
      else []
    dropAlerts ++ costAlerts

/-- `EvolutionMonitor._check_for_alerts` over the whole registry. -/
def checkForAlerts (av : ActiveVariants) : List Alert :=
  av.flatMap (fun p => checkVariantAlerts p.1 p.2.performance_history)

/-- `EvolutionMonitor._handle_alerts`: the variant ids on which
`EvolutionOrchestrator.emergency_rollback` is invoked during this tick
(exactly the high-severity `performance_drop` alerts). -/
def monitorTickRollbacks (av : ActiveVariants) : List String :=
  (checkForAlerts av).filterMap (fun a =>
    if a.severity == "high" && a.type == "performance_drop" then
      some a.variant_id
    else none)

/-- The rollback calls a tick performs against the orchestrator. -/
def monitorTickRollbackCalls (av : ActiveVariants) :
    List (RollbackResult × List PlatformAction) :=
  (monitorTickRollbacks av).map (emergencyRollback av)

/-- The Scenario D history: ctr series
`[0.05, 0.05, 0.05, 0.01, 0.01, 0.01]`. -/
def c9hist : List EngagementMetrics :=
  [mkSample (5/100) 100 10 (4/100) 10, mkSample (5/100) 100 10 (4/100) 10,
   mkSample (5/100) 100 10 (4/100) 10, mkSample (1/100) 100 10 (4/100) 10,
   mkSample (1/100) 100 10 (4/100) 10, mkSample (1/100) 100 10 (4/100) 10]

def c9av : ActiveVariants := [("v9", ⟨c5parent, c9hist⟩)]

/-- C9: with at least 6 samples a high-severity `performance_drop` alert
fires iff the mean ctr of the last 3 samples is below 0.8 times the mean
ctr of the prior 3; every high-severity `performance_drop` alert has
`emergency_rollback` invoked for its variant within the same tick; the
Scenario D series fires the alert and triggers the rollback. -/
theorem monitor_alerts_spec :
    (∀ (vid : String) (hist : List EngagementMetrics), 6 ≤ hist.length →
      ((⟨"performance_drop", vid, "high"⟩ : Alert) ∈ checkVariantAlerts vid hist ↔
        listMean ((hist.drop (hist.length - 3)).map (fun m => m.ctr)) <
          (8/10) *
            listMean (((hist.drop (hist.length - 6)).take 3).map (fun m => m.ctr)))) ∧
    (∀ (av : ActiveVariants) (a : Alert), a ∈ checkForAlerts av →
      a.severity = "high" → a.type = "performance_drop" →
      a.variant_id ∈ monitorTickRollbacks av) ∧
    ((⟨"performance_drop", "v9", "high"⟩ : Alert) ∈ checkForAlerts c9av ∧
      "v9" ∈ monitorTickRollbacks c9av) := by
  refine ⟨?_, ?_, ?_, ?_⟩
  · intro vid hist h6
    have h2 : ¬ hist.length < 2 := by omega
    have h3 : 3 ≤ hist.length := by omega
    simp only [checkVariantAlerts, h2, h3, h6, if_true, if_false, ite_true,
      ite_false, if_neg, if_pos]
    rw [mul_comm]
    by_cases hc :
        listMean ((hist.drop (hist.length - 3)).map (fun m => m.ctr)) <
          listMean (((hist.drop (hist.length - 6)).take 3).map (fun m => m.ctr)) * (8/10) <;>
      by_cases hcost : 100 < (hist.getLastD default).cost_per_acquisition <;>
      simp [hc, hcost]
  · intro av a ha hsev htype
    simp only [monitorTickRollbacks, List.mem_filterMap]
    exact ⟨a, ha, by simp [hsev, htype]⟩
  · show (⟨"performance_drop", "v9", "high"⟩ : Alert) ∈ checkForAlerts c9av
    norm_num [checkForAlerts, c9av, c9hist, mkSample, checkVariantAlerts, listMean]
  · show "v9" ∈ monitorTickRollbacks c9av
    norm_num [monitorTickRollbacks, checkForAlerts, c9av, c9hist, mkSample,
      checkVariantAlerts, listMean, List.filterMap]

theorem monitor_alerts_spec_witness :
    (⟨"performance_drop", "v9", "high"⟩ : Alert) ∈ checkVariantAlerts "v9" c9hist ↔
      listMean ((c9hist.drop (c9hist.length - 3)).map (fun m => m.ctr)) <
        (8/10) *
          listMean (((c9hist.drop (c9hist.length - 6)).take 3).map (fun m => m.ctr)) :=
  monitor_alerts_spec.1 "v9" c9hist (by decide)

/-- The insights dict of `get_evolution_insights`
(`performance_improvements` entries are
`(variant_id, improvement_percentage, mutation_count)` triples;
`top_performing_mutations` and `trend_adoption_rate` are initialised and
never updated in the source). -/
structure EvolutionInsights where
  total_variants : Nat
  total_mutations : Nat
  performance_improvements : List (String × ℚ × Nat)
  top_performing_mutations : List String
  trend_adoption_rate : ℚ
  avg_performance_improvement : ℚ
deriving DecidableEq

/-- The per-variant loop of `get_evolution_insights`: accumulates mutation
counts and, for each variant with more than one sample, the improvement
`(latest_ctr - initial_ctr) / initial_ctr * 100`. Python's float division
raises `ZeroDivisionError` when `initial_ctr == 0`, modelled as
`Except.error`. -/
def insightsLoop : ActiveVariants → Except String (Nat × List (String × ℚ × Nat))
  | [] => Except.ok (0, [])
  | (vid, e) :: rest =>
    let mc := e.variant.mutation_history.length
    if 1 < e.performance_history.length then
      let initial := (e.performance_history.headD default).ctr
      if initial = 0 then Except.error "ZeroDivisionError"
      else
        let latest := (e.performance_history.getLastD default).ctr
        match insightsLoop rest with
        | Except.error err => Except.error err
        | Except.ok (m, l) =>
          Except.ok (mc + m, (vid, (latest - initial) / initial * 100, mc) :: l)
    else
      match insightsLoop rest with
      | Except.error err => Except.error err
      | Except.ok (m, l) => Except.ok (mc + m, l)

/-- `EvolutionOrchestrator.get_evolution_insights`. -/
def getEvolutionInsights (av : ActiveVariants) :
    Except String EvolutionInsights :=
  match insightsLoop av with
  | Except.error e => Except.error e
  | Except.ok (totalMut, improvements) =>
    Except.ok
      { total_variants := av.length
        total_mutations := totalMut
        performance_improvements := improvements
        top_performing_mutations := []
        trend_adoption_rate := 0
        avg_performance_improvement :=
          if improvements.isEmpty then 0
          else listMean (improvements.map (fun p => p.2.1)) }

/-- C10: `get_evolution_insights` returns normally precisely when every
tracked variant with at least 2 performance samples has a nonzero ctr in
its first sample; a zero first-sample ctr makes the (unguarded) division
fail. -/
theorem isOk_ok {α : Type} (x : α) :
    (Except.ok x : Except String α).isOk = true := rfl

theorem isOk_error {α : Type} (e : String) :
    (Except.error e : Except String α).isOk = false := rfl

theorem insights_total_iff (av : ActiveVariants) :
    (getEvolutionInsights av).isOk = true ↔
      ∀ p ∈ av, 2 ≤ p.2.performance_history.length →
        (p.2.performance_history.headD default).ctr ≠ 0 := by
  have key : ∀ l : ActiveVariants, (insightsLoop l).isOk = true ↔
      ∀ p ∈ l, 2 ≤ p.2.performance_history.length →
        (p.2.performance_history.headD default).ctr ≠ 0 := by
    intro l
    induction l with
    | nil => simp [insightsLoop, isOk_ok]
    | cons hd rest ih =>
      obtain ⟨vid, e⟩ := hd
      by_cases h1 : 1 < e.performance_history.length
      · by_cases h0 : (e.performance_history.headD default).ctr = 0
        · have hl : insightsLoop ((vid, e) :: rest) =
              Except.error "ZeroDivisionError" := by
            simp only [insightsLoop]
            rw [if_pos h1, if_pos h0]
          rw [hl, isOk_error]
          constructor
          · intro hfalse
            exact absurd hfalse (by simp)
          · intro hall
            exact absurd h0 (hall (vid, e) (List.mem_cons_self _ _) h1)
        · cases hr : insightsLoop rest with
          | error err =>
            have hl : insightsLoop ((vid, e) :: rest) = Except.error err := by
              simp only [insightsLoop]
              rw [if_pos h1, if_neg h0, hr]
            rw [hl, isOk_error]
            constructor
            · intro hfalse
              exact absurd hfalse (by simp)
            · intro hall
              have hok := ih.2 (fun p hp => hall p (List.mem_cons_of_mem _ hp))
              rw [hr, isOk_error] at hok
              exact hok
          | ok pr =>
            obtain ⟨m, lst⟩ := pr
            have hl : insightsLoop ((vid, e) :: rest) =
                Except.ok (e.variant.mutation_history.length + m,
                  (vid, ((e.performance_history.getLastD default).ctr -
                      (e.performance_history.headD default).ctr) /
                      (e.performance_history.headD default).ctr * 100,
                    e.variant.mutation_history.length) :: lst) := by
              simp only [insightsLoop]
              rw [if_pos h1, if_neg h0, hr]
            rw [hl, isOk_ok]
            simp only [true_iff]
            intro p hp h2
            rcases List.mem_cons.1 hp with hpe | hpr
            · subst hpe
              exact h0
            · exact ih.1 (by rw [hr, isOk_ok]) p hpr h2
      · cases hr : insightsLoop rest with
        | error err =>
          have hl : insightsLoop ((vid, e) :: rest) = Except.error err := by
            simp only [insightsLoop]
            rw [if_neg h1, hr]
          rw [hl, isOk_error]
          constructor
          · intro hfalse
            exact absurd hfalse (by simp)
          · intro hall
            have hok := ih.2 (fun p hp => hall p (List.mem_cons_of_mem _ hp))
            rw [hr, isOk_error] at hok
            exact hok
        | ok pr =>
          obtain ⟨m, lst⟩ := pr
          have hl : insightsLoop ((vid, e) :: rest) =
              Except.ok (e.variant.mutation_history.length + m, lst) := by
            simp only [insightsLoop]
            rw [if_neg h1, hr]
          rw [hl, isOk_ok]
          simp only [true_iff]
          intro p hp h2
          rcases List.mem_cons.1 hp with hpe | hpr
          · subst hpe
            exact absurd (show 2 ≤ e.performance_history.length from h2) (by omega)
          · exact ih.1 (by rw [hr, isOk_ok]) p hpr h2
  rw [← key av]
  have hsame : (getEvolutionInsights av).isOk = (insightsLoop av).isOk := by
    unfold getEvolutionInsights
    cases hr : insightsLoop av with
    | error e => simp [hr, isOk_error]
    | ok pr =>
      obtain ⟨m, lst⟩ := pr
      simp [hr, isOk_ok]
  rw [hsame]

def c10av : ActiveVariants :=
  [("v10", ⟨c5parent, [mkSample (2/100) 100 10 (4/100) 10,
                       mkSample (3/100) 100 10 (4/100) 10]⟩)]

theorem insights_total_iff_witness :
    (getEvolutionInsights c10av).isOk = true :=
  (insights_total_iff c10av).mpr (by
    intro p hp h2
    simp only [c10av, List.mem_singleton] at hp
    subst hp
    norm_num [mkSample])

end AdMorph
